import Mathlib

/-
Verification of the Axis I.S. cloud-service core: a shallow embedding of the
scene-memory ring (scene_memory.py), the Redis sorted-set adapter
(database.py), the trigger evaluator (SceneMemory.should_request_frame), and
the MQTT request/response correlation layer (mqtt_handler.py, main.py).

Modelling conventions:
- Python dicts flowing through the pipeline are embedded as structures whose
  fields are Option-typed when the source reads them with `dict.get` and no
  default; fields read with a default (`get(key, 0)`, `get(key, [])`) are
  embedded with that default applied at construction time.
- A Redis sorted set is embedded as a list of entries kept in ascending score
  order (score = timestamp_us at every call site).  ZADD on a member already
  present is a no-op on the set (the score always equals the member's own
  timestamp); ZADD on a new member inserts it in score order.  Ties between
  distinct members are ordered by insertion position (Redis orders ties by
  member lexicographic order; no theorem below depends on tie order).
- Python floats are embedded as rationals; `round(x, n)` and `f"{x:.2f}"` are
  embedded with round-half-even on rationals.
- Truthiness tests (`if not x`, `x or d`, `if all([...])`) are embedded
  explicitly: None/0/""/[] are falsy.
- Async effects are embedded as explicit state passing; the outcome of an MQTT
  publish is an explicit boolean input.
-/

namespace AxisIS

/-- A detection dict `{class_id, confidence, ...}` as read by the pipeline
(`det.get('class_id')`, `det.get('confidence', 0)`). -/
structure Detection where
  class_id : Option Int
  confidence : Option ℚ
deriving DecidableEq

/-- A metadata message dict as read by scene_memory.py (`metadata.get(...)`). -/
structure Metadata where
  timestamp_us : Option Int
  sequence : Option Int
  motion_score : Option ℚ
  object_count : Option Int
  scene_hash : Option Int
  detections : Option (List Detection)
deriving DecidableEq

/-- The `{}` default used when a side-table metadata key is missing. -/
def emptyMetadata : Metadata :=
  { timestamp_us := none, sequence := none, motion_score := none,
    object_count := none, scene_hash := none, detections := none }

/-- A scene-memory entry: the JSON dict stored as a sorted-set member.
`image_only` records the key-set shape of the stored dict: entries written by
the not-found branch of `add_frame_image` carry only the image fields, so
their JSON serialization can never coincide with a metadata-built member. -/
structure Entry where
  timestamp_us : Int
  frame_id : Option Int
  motion_score : ℚ
  object_count : Int
  scene_hash : Option Int
  detections : List Detection
  has_image : Bool
  image_base64 : Option String
  request_id : Option String
  image_only : Bool
deriving DecidableEq

/-- The configuration fields of config.py consulted by the embedded core. -/
structure Settings where
  frame_request_enabled : Bool
  motion_threshold : ℚ
  vehicle_confidence_threshold : ℚ
  scene_change_enabled : Bool
  scene_memory_frames : Nat
  scene_memory_ttl : Nat
  frame_request_cooldown : Nat
deriving DecidableEq

/-- Defaults from config.py. -/
def defaultSettings : Settings :=
  { frame_request_enabled := true, motion_threshold := 7/10,
    vehicle_confidence_threshold := 1/2, scene_change_enabled := true,
    scene_memory_frames := 30, scene_memory_ttl := 600,
    frame_request_cooldown := 60 }

/-- The camera-state hash (`camera:{id}:state`) as consulted by the trigger
evaluator: only `last_scene_hash` is read; `none` means the key is absent from
the hash.  The whole state is `Option CamState`: `none` when HGETALL is empty
(get_camera_state returns None). -/
structure CamState where
  last_scene_hash : Option Int
deriving DecidableEq

/-- One camera's scene-memory sorted set, ascending by timestamp_us. -/
abbrev Mem := List Entry

/-- Insert an entry into an ascending list by timestamp (after any entries
with an equal timestamp). -/
def zinsert (e : Entry) : Mem → Mem
  | [] => [e]
  | x :: xs => if e.timestamp_us < x.timestamp_us then e :: x :: xs else x :: zinsert e xs

/-- ZADD key {member: score}: at every call site the score equals the member's
own timestamp_us, so re-adding an existing member leaves the set unchanged and
a new member is inserted in score order. -/
def zadd (s : Mem) (e : Entry) : Mem :=
  zinsert e (s.filter (fun x => decide (x ≠ e)))

/-- ZREMRANGEBYRANK key 0 -(N+1): keep only the N highest-ranked entries. -/
def ztrim (cfg : Settings) (s : Mem) : Mem :=
  s.drop (s.length - cfg.scene_memory_frames)

/-- RedisCache.add_to_scene_memory: ZADD then trim to the last N frames
(TTL refresh has no effect on the set contents). -/
def add_to_scene_memory (cfg : Settings) (s : Mem) (e : Entry) : Mem :=
  ztrim cfg (zadd s e)

/-- RedisCache.get_scene_memory: ZRANGE key -limit -1, i.e. the `limit`
highest entries (all of them when the set is smaller); with limit = 0 the
start index -0 = 0 yields the whole set. -/
def get_scene_memory (s : Mem) (limit : Nat) : Mem :=
  if limit = 0 then s else s.drop (s.length - limit)

/-- The frame_data dict built by SceneMemory.add_metadata. -/
def metaEntry (m : Metadata) (t : Int) : Entry :=
  { timestamp_us := t, frame_id := m.sequence,
    motion_score := (m.motion_score).getD 0,
    object_count := (m.object_count).getD 0,
    scene_hash := m.scene_hash,
    detections := (m.detections).getD [],
    has_image := false, image_base64 := none, request_id := none,
    image_only := false }

/-- SceneMemory.add_metadata: `if not timestamp_us: return` drops a missing
or zero (falsy) timestamp; otherwise the frame_data entry is stored. -/
def add_metadata (cfg : Settings) (s : Mem) (m : Metadata) : Mem :=
  match m.timestamp_us with
  | none => s
  | some t => if t = 0 then s else add_to_scene_memory cfg s (metaEntry m t)

/-- The in-place mutation of a matched frame dict in add_frame_image. -/
def upgradeEntry (f : Entry) (rid img : String) : Entry :=
  { f with has_image := true, image_base64 := some img, request_id := some rid }

/-- The image-only frame_data dict of add_frame_image's not-found branch. -/
def imageEntry (rid : String) (ts : Int) (img : String) : Entry :=
  { timestamp_us := ts, frame_id := none, motion_score := 0, object_count := 0,
    scene_hash := none, detections := [], has_image := true,
    image_base64 := some img, request_id := some rid, image_only := true }

/-- SceneMemory.add_frame_image: scan the fetched frames in ascending order,
upgrade-and-re-add the first one within the 1 s tolerance and break; if none
matches, add a fresh image-only entry. -/
def add_frame_image (cfg : Settings) (s : Mem) (rid : String) (ts : Int)
    (img : String) : Mem :=
  let frames := get_scene_memory s cfg.scene_memory_frames
  match frames.find? (fun f => decide (|f.timestamp_us - ts| < 1000000)) with
  | some f => add_to_scene_memory cfg s (upgradeEntry f rid img)
  | none => add_to_scene_memory cfg s (imageEntry rid ts img)

/-- SceneMemory.get_recent_frames: fetch, optionally filter to image-bearing
frames, then `frames[-limit:] if limit else frames`. -/
def get_recent_frames (cfg : Settings) (s : Mem) (limit : Nat)
    (with_images : Bool) : Mem :=
  let frames := get_scene_memory s cfg.scene_memory_frames
  let frames := if with_images then frames.filter (fun f => f.has_image) else frames
  if limit = 0 then frames else frames.drop (frames.length - limit)

/-- Round-half-even of a rational to an integer (Python round / format). -/
def roundHalfEven (q : ℚ) : Int :=
  let f : Int := Int.floor q
  let frac : ℚ := q - (f : ℚ)
  if frac < 1/2 then f
  else if 1/2 < frac then f + 1
  else if f % 2 = 0 then f else f + 1

/-- Python round(x, 3) on the embedded rationals. -/
def roundTo3 (q : ℚ) : ℚ := (roundHalfEven (q * 1000) : ℚ) / 1000

/-- Python f-string formatting with two decimals, on the embedded rationals. -/
def formatFixed2 (q : ℚ) : String :=
  let c : Int := roundHalfEven (q * 100)
  let sign := if c < 0 then "-" else ""
  let a : Nat := c.natAbs
  let fp := a % 100
  let fpStr := if fp < 10 then "0" ++ toString fp else toString fp
  sign ++ toString (a / 100) ++ "." ++ fpStr

/-- The context dict built by SceneMemory.get_context_for_analysis.  Keys
absent from a returned dict are embedded as `none` (the empty-memory early
return carries only camera_id, frames_available and summary). -/
structure AnalysisContext where
  camera_id : String
  frames_available : Nat
  summary : Option String
  frames_with_images : Option Nat
  time_span_seconds : Option ℚ
  total_objects_detected : Option Int
  average_motion_score : Option ℚ
  unique_object_classes : Option Nat
  latest_timestamp : Option Int
deriving DecidableEq

/-- SceneMemory.get_context_for_analysis (fetch limit is the literal 30). -/
def get_context_for_analysis (camera_id : String) (s : Mem) : AnalysisContext :=
  let frames := get_scene_memory s 30
  if h : frames = [] then
    { camera_id := camera_id, frames_available := 0,
      summary := some "No frames in memory",
      frames_with_images := none, time_span_seconds := none,
      total_objects_detected := none, average_motion_score := none,
      unique_object_classes := none, latest_timestamp := none }
  else
    { camera_id := camera_id,
      frames_available := frames.length,
      summary := none,
      frames_with_images := some ((frames.filter (fun f => f.has_image)).length),
      time_span_seconds := some (if 1 < frames.length then
          ((((frames.getLast h).timestamp_us - (frames.head h).timestamp_us : Int) : ℚ) / 1000000)
        else 0),
      total_objects_detected := some ((frames.map (fun f => f.object_count)).sum),
      average_motion_score :=
        some (roundTo3 (((frames.map (fun f => f.motion_score)).sum) / (frames.length : ℚ))),
      unique_object_classes :=
        some (((frames.map (fun f => f.detections)).flatten.filterMap
          (fun d => d.class_id)).dedup.length),
      latest_timestamp := some (frames.getLast h).timestamp_us }

/-- RedisCache.check_request_cooldown: True iff the cooldown key is absent. -/
def check_request_cooldown (keyExists : Bool) : Bool := !keyExists

/-- One step of the vehicle-detection trigger loop:
`det.get('class_id') in [2, 5, 7] and det.get('confidence', 0) > threshold`. -/
def isVehicleTrigger (cfg : Settings) (d : Detection) : Bool :=
  (match d.class_id with
   | some c => decide (c = 2 ∨ c = 5 ∨ c = 7)
   | none => false) &&
  decide (cfg.vehicle_confidence_threshold < (d.confidence).getD 0)

/-- The reason string for a fired vehicle trigger. -/
def vehicleReason (d : Detection) : String :=
  "vehicle_detected_" ++ (match d.class_id with | some c => toString c | none => "")

/-- HSET of last_scene_hash into the camera-state hash (creating it). -/
def setLastSceneHash (state : Option CamState) (h : Int) : Option CamState :=
  match state with
  | some st => some { st with last_scene_hash := some h }
  | none => some { last_scene_hash := some h }

/-- SceneMemory.should_request_frame.  Inputs: whether the cooldown key
exists, the camera-state hash, and the metadata dict.  Output: the returned
(fire, reason) pair together with the camera state after the call (the
scene-change branch is the only one that writes it). -/
def should_request_frame (cfg : Settings) (cooldownKeyExists : Bool)
    (state : Option CamState) (m : Metadata) : (Bool × String) × Option CamState :=
  if check_request_cooldown cooldownKeyExists = false then
    ((false, "cooldown"), state)
  else if cfg.frame_request_enabled = false then
    ((false, "disabled"), state)
  else if (m.motion_score).getD 0 ≠ 0 ∧ cfg.motion_threshold < (m.motion_score).getD 0 then
    ((true, "high_motion_" ++ formatFixed2 ((m.motion_score).getD 0)), state)
  else
    match ((m.detections).getD []).find? (isVehicleTrigger cfg) with
    | some d => ((true, vehicleReason d), state)
    | none =>
      if cfg.scene_change_enabled = false then ((false, "no_trigger"), state)
      else
        match m.scene_hash with
        | none => ((false, "no_trigger"), state)
        | some h =>
          if h = 0 then ((false, "no_trigger"), state)
          else
            match state with
            | some st =>
              match st.last_scene_hash with
              | some l =>
                if l = 0 then ((false, "no_trigger"), setLastSceneHash state h)
                else if l ≠ h then ((true, "scene_change"), setLastSceneHash state h)
                else ((false, "no_trigger"), state)
              | none => ((false, "no_trigger"), setLastSceneHash state h)
            | none => ((false, "no_trigger"), setLastSceneHash state h)

/-- A parsed frame payload `{request_id, timestamp_us, image_base64}`. -/
structure FramePayload where
  request_id : Option String
  timestamp_us : Option Int
  image_base64 : Option String
deriving DecidableEq

/-- Python truthiness of an optional string (None and "" are falsy). -/
def truthyOptStr : Option String → Bool
  | some v => decide (v ≠ "")
  | none => false

/-- Python truthiness of an optional integer (None and 0 are falsy). -/
def truthyOptInt : Option Int → Bool
  | some v => decide (v ≠ 0)
  | none => false

/-- Lookup in a string-keyed Redis keyspace embedded as an association list. -/
def lookupKV {α : Type} (m : List (String × α)) (k : String) : Option α :=
  (m.find? (fun p => decide (p.1 = k))).map (fun p => p.2)

/-- SET/SETEX: bind a key, replacing any previous binding. -/
def setKV {α : Type} (m : List (String × α)) (k : String) (v : α) :
    List (String × α) :=
  (k, v) :: m.filter (fun p => decide (p.1 ≠ k))

/-- DEL: remove a key. -/
def delKV {α : Type} (m : List (String × α)) (k : String) : List (String × α) :=
  m.filter (fun p => decide (p.1 ≠ k))

/-- Drop every key whose stored TTL (seconds) has elapsed. -/
def expireSide {α : Type} (m : List (String × α × Nat)) (elapsed : Nat) :
    List (String × α × Nat) :=
  m.filter (fun p => decide (elapsed < p.2.2))

/-- The mutable state touched by MQTTHandler.request_frame / handle_frame:
the two side-table key families (value paired with its SETEX TTL), per-camera
scene memory, cooldown marks, the outgoing frame_request publishes, the
analyze_scene tasks that were dispatched, and the two counters. -/
structure PipelineState where
  sideEventId : List (String × Int × Nat)
  sideMetadata : List (String × Metadata × Nat)
  sceneMem : List (String × Mem)
  cooldown : List (String × Nat)
  published : List (String × String × String × Option Int)
  dispatched : List (String × Metadata × Int)
  frame_requests_sent : Nat
  analyses_triggered : Nat
deriving DecidableEq

/-- The empty pipeline state. -/
def initState : PipelineState :=
  { sideEventId := [], sideMetadata := [], sceneMem := [], cooldown := [],
    published := [], dispatched := [], frame_requests_sent := 0,
    analyses_triggered := 0 }

/-- MQTTHandler.request_frame.  The generated uuid and the outcome of the
MQTT publish are explicit inputs.  The try block writes the two side-table
keys (TTL 300), publishes, sets the cooldown and bumps the counter in that
order; its except clause catches and logs every exception, so the second
component (the exception escaping to the caller) is always `none`, and a
publish failure leaves the side table written but neither the cooldown mark
nor the counter nor the publish record. -/
def request_frame (cfg : Settings) (st : PipelineState) (camera_id reason : String)
    (event_id : Int) (trigger_metadata : Metadata) (request_id : String)
    (publishOk : Bool) : PipelineState × Option String :=
  let st1 : PipelineState :=
    { st with
      sideEventId := setKV st.sideEventId request_id (event_id, 300),
      sideMetadata := setKV st.sideMetadata request_id (trigger_metadata, 300) }
  if publishOk then
    ({ st1 with
       published := st1.published ++
         [(camera_id, request_id, reason, trigger_metadata.timestamp_us)],
       cooldown := setKV st1.cooldown camera_id cfg.frame_request_cooldown,
       frame_requests_sent := st1.frame_requests_sent + 1 }, none)
  else (st1, none)

/-- MQTTHandler.handle_frame: drop incomplete payloads; merge the frame into
scene memory; read the side-table keys; if the stored event id is truthy,
dispatch an analysis task and delete both keys, otherwise only log. -/
def handle_frame (cfg : Settings) (st : PipelineState) (camera_id : String)
    (fd : FramePayload) : PipelineState :=
  if truthyOptStr fd.request_id && truthyOptInt fd.timestamp_us &&
      truthyOptStr fd.image_base64 then
    let rid := (fd.request_id).getD ""
    let ts := (fd.timestamp_us).getD 0
    let img := (fd.image_base64).getD ""
    let mem := (lookupKV st.sceneMem camera_id).getD []
    let st1 : PipelineState :=
      { st with sceneMem := setKV st.sceneMem camera_id (add_frame_image cfg mem rid ts img) }
    match lookupKV st1.sideEventId rid with
    | some v =>
      if v.1 = 0 then st1
      else
        { st1 with
          analyses_triggered := st1.analyses_triggered + 1,
          dispatched := st1.dispatched ++
            [(camera_id, ((lookupKV st1.sideMetadata rid).map (fun p => p.1)).getD emptyMetadata, v.1)],
          sideEventId := delKV st1.sideEventId rid,
          sideMetadata := delKV st1.sideMetadata rid }
    | none => st1
  else st

/-- One scene-memory mutation, for stating invariants over arbitrary call
sequences. -/
inductive MemOp where
  | meta (m : Metadata)
  | image (rid : String) (ts : Int) (img : String)

/-- Apply one scene-memory entry point. -/
def applyOp (cfg : Settings) (s : Mem) : MemOp → Mem
  | MemOp.meta m => add_metadata cfg s m
  | MemOp.image rid ts img => add_frame_image cfg s rid ts img

/-- Apply a sequence of scene-memory entry points. -/
def applyOps (cfg : Settings) (s : Mem) (ops : List MemOp) : Mem :=
  ops.foldl (applyOp cfg) s

/-- Spec-side: the earliest timestamp among a camera's entries. -/
def earliestTs : Mem → Int
  | [] => 0
  | e :: es => es.foldl (fun a x => min a x.timestamp_us) e.timestamp_us

/-- Spec-side: the latest timestamp among a camera's entries. -/
def latestTs : Mem → Int
  | [] => 0
  | e :: es => es.foldl (fun a x => max a x.timestamp_us) e.timestamp_us

/-- Claim C1: with an active cooldown mark (the cooldown key exists), the
trigger evaluator returns (false, "cooldown") for every configuration, every
camera state and every metadata input, leaving the state untouched; the
cooldown check short-circuits every other trigger condition. -/
theorem cooldown_short_circuits (cfg : Settings) (state : Option CamState)
    (m : Metadata) :
    should_request_frame cfg true state m = ((false, "cooldown"), state) := rfl

/-- Claim C3 (counterexample): when the publish fails, request_frame catches
the exception and only logs it, so no error escapes to the caller — the
second component of the embedded call is `none` rather than an error. -/
theorem request_frame_swallows_error_cex :
    (request_frame defaultSettings initState "cam0" "high_motion_0.90" 7
      emptyMetadata "rid-0" false).2 = none := rfl

/-- Claim C3 (amended): on publish failure the side-table keys written before
the publish are retained (with their 300 s TTL) and the cooldown mark, the
publish record and the sent counter are untouched; however the exception is
caught and logged inside request_frame, so no error propagates to the
caller. -/
theorem request_frame_publish_failure (cfg : Settings) (st : PipelineState)
    (cam reason : String) (eid : Int) (tm : Metadata) (rid : String) :
    (request_frame cfg st cam reason eid tm rid false).2 = none ∧
    lookupKV (request_frame cfg st cam reason eid tm rid false).1.sideEventId rid
      = some (eid, 300) ∧
    lookupKV (request_frame cfg st cam reason eid tm rid false).1.sideMetadata rid
      = some (tm, 300) ∧
    (request_frame cfg st cam reason eid tm rid false).1.cooldown = st.cooldown ∧
    (request_frame cfg st cam reason eid tm rid false).1.published = st.published ∧
    (request_frame cfg st cam reason eid tm rid false).1.frame_requests_sent
      = st.frame_requests_sent := by
  refine ⟨rfl, ?_, ?_, rfl, rfl, rfl⟩ <;>
    simp [request_frame, lookupKV, setKV, List.find?]

/-- A metadata message with a negative timestamp. -/
def mNeg : Metadata :=
  { timestamp_us := some (-1), sequence := none, motion_score := none,
    object_count := none, scene_hash := none, detections := none }

/-- Claim C6 (counterexample): add_metadata with timestamp_us = -1 inserts an
entry (the falsy-timestamp guard only rejects missing and zero timestamps),
so scene memory holds an entry whose timestamp is not strictly positive. -/
theorem add_metadata_negative_timestamp_cex :
    (add_metadata defaultSettings [] mNeg).map (fun e => e.timestamp_us) = [-1] ∧
    ¬ (0 : Int) < -1 := by decide

/-- Claim C6 (amended): add_metadata drops (inserts nothing for) metadata
whose timestamp is missing or zero; any other timestamp — negative ones
included — is stored, so entries need not have strictly positive
timestamps. -/
theorem add_metadata_falsy_drop (cfg : Settings) (s : Mem) (m : Metadata) :
    ((m.timestamp_us = none ∨ m.timestamp_us = some 0) ∧ add_metadata cfg s m = s) ∨
    (∃ t, m.timestamp_us = some t ∧ t ≠ 0 ∧
      add_metadata cfg s m = add_to_scene_memory cfg s (metaEntry m t) ∧
      (metaEntry m t).timestamp_us = t) := by
  cases hts : m.timestamp_us with
  | none => exact Or.inl ⟨Or.inl rfl, by simp [add_metadata, hts]⟩
  | some t =>
    by_cases ht : t = 0
    · exact Or.inl ⟨Or.inr (congrArg some ht), by simp [add_metadata, hts, ht]⟩
    · exact Or.inr ⟨t, rfl, ht, by simp [add_metadata, hts, ht], rfl⟩

/-- Metadata at t = 1 000 000 for the merge counterexample. -/
def mA : Metadata :=
  { timestamp_us := some 1000000, sequence := some 1, motion_score := none,
    object_count := none, scene_hash := none, detections := none }

/-- Metadata at t = 1 900 000 for the merge counterexample. -/
def mB : Metadata :=
  { timestamp_us := some 1900000, sequence := some 2, motion_score := none,
    object_count := none, scene_hash := none, detections := none }

/-- Scene memory holding the two metadata entries above. -/
def memAB : Mem := add_metadata defaultSettings (add_metadata defaultSettings [] mA) mB

/-- Claim C5 (counterexample): an image at t = 1 950 000 is 50 000 µs from
the entry at 1 900 000 (the minimum) but 950 000 µs from the entry at
1 000 000; both are within tolerance and the code upgrades the FIRST one in
ascending order (t = 1 000 000), not the nearest; moreover the upgrade is
re-added as a new sorted-set member, so the set grows from 2 to 3 entries and
the stale metadata-only member at 1 000 000 remains, while the nearest entry
at 1 900 000 is left without an image. -/
theorem add_frame_image_not_minimal_cex :
    (add_frame_image defaultSettings memAB "req-1" 1950000 "imgdata").length = 3 ∧
    ((add_frame_image defaultSettings memAB "req-1" 1950000 "imgdata").filter
      (fun e => e.has_image)).map (fun e => e.timestamp_us) = [1000000] ∧
    ((add_frame_image defaultSettings memAB "req-1" 1950000 "imgdata").filter
      (fun e => decide (e.timestamp_us = 1900000))).map (fun e => e.has_image)
      = [false] ∧
    (|(1900000 : Int) - 1950000| < 1000000 ∧
     |(1000000 : Int) - 1950000| < 1000000 ∧
     |(1900000 : Int) - 1950000| < |(1000000 : Int) - 1950000|) := by decide

/-- Claim C8 (counterexample): on an empty scene memory the context is the
reduced early-return dict, which carries no average_motion_score key at all
(embedded as `none`) rather than an average of 0. -/
theorem context_empty_average_cex :
    (get_context_for_analysis "cam0" []).average_motion_score = none ∧
    (get_context_for_analysis "cam0" []).average_motion_score ≠ some 0 := by
  exact ⟨rfl, by decide⟩

theorem mem_zinsert (a e : Entry) : ∀ (s : Mem), a ∈ zinsert e s ↔ a = e ∨ a ∈ s
  | [] => by simp [zinsert]
  | x :: xs => by
    by_cases h : e.timestamp_us < x.timestamp_us
    · simp only [zinsert, if_pos h, List.mem_cons]
    · simp only [zinsert, if_neg h, List.mem_cons, mem_zinsert a e xs]
      tauto

theorem pairwise_zinsert (e : Entry) : ∀ (s : Mem),
    List.Pairwise (fun a b : Entry => a.timestamp_us ≤ b.timestamp_us) s →
    List.Pairwise (fun a b : Entry => a.timestamp_us ≤ b.timestamp_us) (zinsert e s)
  | [], _ => by simp [zinsert]
  | x :: xs, hp => by
    rw [List.pairwise_cons] at hp
    by_cases h : e.timestamp_us < x.timestamp_us
    · simp only [zinsert, if_pos h]
      refine List.Pairwise.cons (fun b hb => ?_) (List.Pairwise.cons hp.1 hp.2)
      rcases List.mem_cons.mp hb with rfl | hb
      · exact le_of_lt h
      · exact le_trans (le_of_lt h) (hp.1 b hb)
    · simp only [zinsert, if_neg h]
      refine List.Pairwise.cons (fun b hb => ?_) (pairwise_zinsert e xs hp.2)
      rcases (mem_zinsert b e xs).mp hb with rfl | hb
      · exact le_of_not_lt h
      · exact hp.1 b hb

theorem pairwise_zadd (s : Mem) (e : Entry)
    (hp : List.Pairwise (fun a b : Entry => a.timestamp_us ≤ b.timestamp_us) s) :
    List.Pairwise (fun a b : Entry => a.timestamp_us ≤ b.timestamp_us) (zadd s e) :=
  pairwise_zinsert e _ (hp.sublist (List.filter_sublist s))

theorem pairwise_add_to_scene_memory (cfg : Settings) (s : Mem) (e : Entry)
    (hp : List.Pairwise (fun a b : Entry => a.timestamp_us ≤ b.timestamp_us) s) :
    List.Pairwise (fun a b : Entry => a.timestamp_us ≤ b.timestamp_us)
      (add_to_scene_memory cfg s e) :=
  (pairwise_zadd s e hp).sublist (List.drop_sublist _ _)

theorem length_add_to_scene_memory (cfg : Settings) (s : Mem) (e : Entry) :
    (add_to_scene_memory cfg s e).length ≤ cfg.scene_memory_frames := by
  simp only [add_to_scene_memory, ztrim, List.length_drop]
  omega

theorem applyOp_shape (cfg : Settings) (s : Mem) (op : MemOp) :
    applyOp cfg s op = s ∨ ∃ e, applyOp cfg s op = add_to_scene_memory cfg s e := by
  cases op with
  | meta m =>
    cases hts : m.timestamp_us with
    | none => exact Or.inl (by simp [applyOp, add_metadata, hts])
    | some t =>
      by_cases ht : t = 0
      · exact Or.inl (by simp [applyOp, add_metadata, hts, ht])
      · exact Or.inr ⟨metaEntry m t, by simp [applyOp, add_metadata, hts, ht]⟩
  | image rid ts img =>
    simp only [applyOp, add_frame_image]
    cases (get_scene_memory s cfg.scene_memory_frames).find?
        (fun f => decide (|f.timestamp_us - ts| < 1000000)) with
    | none => exact Or.inr ⟨imageEntry rid ts img, rfl⟩
    | some f => exact Or.inr ⟨upgradeEntry f rid img, rfl⟩

theorem applyOps_invariant (cfg : Settings) : ∀ (ops : List MemOp) (s : Mem),
    s.length ≤ cfg.scene_memory_frames →
    List.Pairwise (fun a b : Entry => a.timestamp_us ≤ b.timestamp_us) s →
    (applyOps cfg s ops).length ≤ cfg.scene_memory_frames ∧
      List.Pairwise (fun a b : Entry => a.timestamp_us ≤ b.timestamp_us)
        (applyOps cfg s ops)
  | [], s, h, hp => ⟨h, hp⟩
  | op :: ops, s, h, hp => by
    have hstep : (applyOp cfg s op).length ≤ cfg.scene_memory_frames ∧
        List.Pairwise (fun a b : Entry => a.timestamp_us ≤ b.timestamp_us)
          (applyOp cfg s op) := by
      rcases applyOp_shape cfg s op with heq | ⟨e, heq⟩
      · rw [heq]; exact ⟨h, hp⟩
      · rw [heq]
        exact ⟨length_add_to_scene_memory cfg s e,
          pairwise_add_to_scene_memory cfg s e hp⟩
    exact applyOps_invariant cfg ops (applyOp cfg s op) hstep.1 hstep.2

/-- Claim C2: starting from an empty scene memory, any sequence of
add_metadata / add_frame_image calls leaves at most 30 entries in a camera's
set; moreover every insert first places the member in ascending timestamp
order and then keeps exactly the 30 highest-ranked members, so each removed
member's timestamp is at most every retained member's timestamp (the eldest
entries beyond 30 are the ones that go). -/
theorem scene_memory_bounded (ops : List MemOp) :
    (applyOps defaultSettings [] ops).length ≤ 30 ∧
    ∀ e : Entry,
      (((zadd (applyOps defaultSettings [] ops) e).take
          ((zadd (applyOps defaultSettings [] ops) e).length - 30)).all
        (fun x => (add_to_scene_memory defaultSettings (applyOps defaultSettings [] ops) e).all
          (fun y => decide (x.timestamp_us ≤ y.timestamp_us)))) = true ∧
      add_to_scene_memory defaultSettings (applyOps defaultSettings [] ops) e =
        (zadd (applyOps defaultSettings [] ops) e).drop
          ((zadd (applyOps defaultSettings [] ops) e).length - 30) := by
  have hinv := applyOps_invariant defaultSettings ops [] (by simp) (by simp)
  refine ⟨hinv.1, fun e => ⟨?_, rfl⟩⟩
  have hp := pairwise_zadd _ e hinv.2
  set l := zadd (applyOps defaultSettings [] ops) e with hl
  have hsplit := List.take_append_drop (l.length - 30) l
  rw [← hsplit] at hp
  have hcross := (List.pairwise_append.mp hp).2.2
  simp only [List.all_eq_true, decide_eq_true_eq]
  intro x hx y hy
  exact hcross x hx y hy

theorem get_scene_memory_all (s : Mem) (n : Nat) (hn : n ≠ 0) (h : s.length ≤ n) :
    get_scene_memory s n = s := by
  simp [get_scene_memory, hn, Nat.sub_eq_zero_of_le h]

theorem ztrim_of_le (cfg : Settings) (l : Mem)
    (h : l.length ≤ cfg.scene_memory_frames) : ztrim cfg l = l := by
  simp [ztrim, Nat.sub_eq_zero_of_le h]

theorem length_zinsert (e : Entry) : ∀ (s : Mem), (zinsert e s).length = s.length + 1
  | [] => rfl
  | x :: xs => by
    by_cases h : e.timestamp_us < x.timestamp_us
    · simp [zinsert, h]
    · simp [zinsert, h, length_zinsert e xs]

theorem filter_ne_of_not_mem (s : Mem) (e : Entry) (h : e ∉ s) :
    s.filter (fun x => decide (x ≠ e)) = s :=
  List.filter_eq_self.mpr (fun _ hy => decide_eq_true (fun hye => h (hye ▸ hy)))

/-- Claim C5 (amended): the merge matches the FIRST entry in ascending
timestamp order whose distance to the arriving timestamp is below the 1 s
tolerance (not the minimum-distance one), and re-adds the upgraded copy as a
new sorted-set member: the original metadata-only member remains and the set
grows by one entry; when no entry is within tolerance, a fresh entry carrying
only the image fields is inserted. -/
theorem add_frame_image_first_match (cfg : Settings) (s : Mem) (rid : String)
    (ts : Int) (img : String) :
    (∀ f : Entry,
      s.find? (fun f => decide (|f.timestamp_us - ts| < 1000000)) = some f →
      f.has_image = false →
      upgradeEntry f rid img ∉ s →
      s.length < cfg.scene_memory_frames →
      (add_frame_image cfg s rid ts img
          = add_to_scene_memory cfg s (upgradeEntry f rid img) ∧
       f ∈ add_frame_image cfg s rid ts img ∧
       upgradeEntry f rid img ∈ add_frame_image cfg s rid ts img ∧
       (add_frame_image cfg s rid ts img).length = s.length + 1)) ∧
    (s.find? (fun f => decide (|f.timestamp_us - ts| < 1000000)) = none →
      s.length ≤ cfg.scene_memory_frames → cfg.scene_memory_frames ≠ 0 →
      add_frame_image cfg s rid ts img
        = add_to_scene_memory cfg s (imageEntry rid ts img)) := by
  constructor
  · intro f hfind himg hnm hlt
    have hN : cfg.scene_memory_frames ≠ 0 :=
      Nat.pos_iff_ne_zero.mp (Nat.lt_of_le_of_lt (Nat.zero_le _) hlt)
    have hfetch : get_scene_memory s cfg.scene_memory_frames = s :=
      get_scene_memory_all s _ hN (le_of_lt hlt)
    have heq : add_frame_image cfg s rid ts img
        = add_to_scene_memory cfg s (upgradeEntry f rid img) := by
      simp only [add_frame_image, hfetch, hfind]
    have hfs : s.filter (fun x => decide (x ≠ upgradeEntry f rid img)) = s :=
      filter_ne_of_not_mem s _ hnm
    have hlen2 : (zadd s (upgradeEntry f rid img)).length = s.length + 1 := by
      rw [zadd, hfs, length_zinsert]
    have htrim : add_to_scene_memory cfg s (upgradeEntry f rid img)
        = zadd s (upgradeEntry f rid img) := by
      rw [add_to_scene_memory]
      exact ztrim_of_le cfg _ (by omega)
    have hfmem : f ∈ s := List.mem_of_find?_eq_some hfind
    have hfne : f ≠ upgradeEntry f rid img := by
      intro h
      have hhi := congrArg Entry.has_image h
      rw [himg] at hhi
      simp [upgradeEntry] at hhi
    refine ⟨heq, ?_, ?_, ?_⟩
    · rw [heq, htrim, zadd, hfs]
      exact (mem_zinsert f _ s).mpr (Or.inr hfmem)
    · rw [heq, htrim, zadd, hfs]
      exact (mem_zinsert _ _ s).mpr (Or.inl rfl)
    · rw [heq, htrim, hlen2]
  · intro hfind hle hN
    have hfetch : get_scene_memory s cfg.scene_memory_frames = s :=
      get_scene_memory_all s _ hN hle
    simp only [add_frame_image, hfetch, hfind]

/-- A bare metadata message carrying only a timestamp. -/
def sampleMeta (t : Int) : Metadata :=
  { timestamp_us := some t, sequence := none, motion_score := none,
    object_count := none, scene_hash := none, detections := none }

/-- A metadata-built scene-memory entry carrying only a timestamp. -/
def sampleEntry (t : Int) : Entry := metaEntry (sampleMeta t) t

theorem add_frame_image_first_match_witness :
    (add_frame_image defaultSettings memAB "req-1" 1950000 "imgdata"
        = add_to_scene_memory defaultSettings memAB
            (upgradeEntry (metaEntry mA 1000000) "req-1" "imgdata") ∧
     metaEntry mA 1000000
        ∈ add_frame_image defaultSettings memAB "req-1" 1950000 "imgdata" ∧
     upgradeEntry (metaEntry mA 1000000) "req-1" "imgdata"
        ∈ add_frame_image defaultSettings memAB "req-1" 1950000 "imgdata" ∧
     (add_frame_image defaultSettings memAB "req-1" 1950000 "imgdata").length
        = memAB.length + 1) :=
  (add_frame_image_first_match defaultSettings memAB "req-1" 1950000 "imgdata").1
    (metaEntry mA 1000000) (by decide) (by decide) (by decide) (by decide)

/-- Claim C9: get_recent_frames with limit = 0 returns the whole
(optionally image-filtered) scene-memory sequence — the Python falsy test on
the limit bypasses the slice — while a positive limit returns the suffix of
at most `limit` most recent matching entries. -/
theorem recent_frames_limit_behavior (s : Mem) (l : Nat) (wi : Bool)
    (hlen : s.length ≤ 30) :
    get_recent_frames defaultSettings s 0 wi
      = (if wi then s.filter (fun e => e.has_image) else s) ∧
    (0 < l →
      get_recent_frames defaultSettings s l wi
        = (if wi then s.filter (fun e => e.has_image) else s).drop
            ((if wi then s.filter (fun e => e.has_image) else s).length - l) ∧
      (get_recent_frames defaultSettings s l wi).length ≤ l) := by
  have hfetch : get_scene_memory s 30 = s :=
    get_scene_memory_all s 30 (by decide) hlen
  constructor
  · simp only [get_recent_frames, defaultSettings, hfetch]
    rfl
  · intro hl
    have hlne : l ≠ 0 := Nat.pos_iff_ne_zero.mp hl
    constructor
    · simp only [get_recent_frames, defaultSettings, hfetch, if_neg hlne]
    · simp only [get_recent_frames, defaultSettings, hfetch, if_neg hlne,
        List.length_drop]
      omega

theorem recent_frames_limit_behavior_witness :
    (get_recent_frames defaultSettings
        [sampleEntry 10, sampleEntry 20, sampleEntry 30] 0 false
      = (if false then
          (List.filter (fun e => e.has_image)
            [sampleEntry 10, sampleEntry 20, sampleEntry 30])
         else [sampleEntry 10, sampleEntry 20, sampleEntry 30])) ∧
    (get_recent_frames defaultSettings
        [sampleEntry 10, sampleEntry 20, sampleEntry 30] 2 false
      = (if false then
          (List.filter (fun e => e.has_image)
            [sampleEntry 10, sampleEntry 20, sampleEntry 30])
         else [sampleEntry 10, sampleEntry 20, sampleEntry 30]).drop
          ((if false then
            (List.filter (fun e => e.has_image)
              [sampleEntry 10, sampleEntry 20, sampleEntry 30])
           else [sampleEntry 10, sampleEntry 20, sampleEntry 30]).length - 2) ∧
     (get_recent_frames defaultSettings
        [sampleEntry 10, sampleEntry 20, sampleEntry 30] 2 false).length ≤ 2) :=
  ⟨(recent_frames_limit_behavior
      [sampleEntry 10, sampleEntry 20, sampleEntry 30] 2 false (by decide)).1,
   (recent_frames_limit_behavior
      [sampleEntry 10, sampleEntry 20, sampleEntry 30] 2 false (by decide)).2
     (by decide)⟩

theorem foldl_min_of_le : ∀ (es : Mem) (a : Int),
    (∀ x ∈ es, a ≤ x.timestamp_us) →
    es.foldl (fun b x => min b x.timestamp_us) a = a
  | [], _, _ => rfl
  | x :: xs, a, h => by
    have hx : min a x.timestamp_us = a := min_eq_left (h x (List.mem_cons_self x xs))
    simp only [List.foldl_cons, hx]
    exact foldl_min_of_le xs a (fun y hy => h y (List.mem_cons_of_mem x hy))

theorem earliestTs_sorted (e : Entry) (es : Mem)
    (hp : List.Pairwise (fun a b : Entry => a.timestamp_us ≤ b.timestamp_us) (e :: es)) :
    earliestTs (e :: es) = e.timestamp_us := by
  rw [earliestTs]
  exact foldl_min_of_le es e.timestamp_us (List.pairwise_cons.mp hp).1

theorem latestTs_sorted : ∀ (l : Mem) (h : l ≠ []),
    List.Pairwise (fun a b : Entry => a.timestamp_us ≤ b.timestamp_us) l →
    latestTs l = (l.getLast h).timestamp_us
  | [e], _, _ => by simp [latestTs]
  | e :: f :: fs, _, hp => by
    have hef : e.timestamp_us ≤ f.timestamp_us :=
      (List.pairwise_cons.mp hp).1 f (List.mem_cons_self f fs)
    have hstep : latestTs (e :: f :: fs) = latestTs (f :: fs) := by
      simp only [latestTs, List.foldl_cons, max_eq_right hef]
    rw [hstep, latestTs_sorted (f :: fs) (List.cons_ne_nil f fs)
      (List.pairwise_cons.mp hp).2]
    rw [List.getLast_cons (List.cons_ne_nil f fs)]

/-- Claim C8 (amended): with the set's invariant size bound (≤ 30 entries,
ascending order), the context reports frames_available equal to the number of
entries in the set and time_span_seconds equal to
(latest − earliest timestamp_us) / 10^6; on an empty set, the early return
reports frames_available = 0 but carries NO average_motion_score key at all
(rather than an average of 0). -/
theorem context_reports (c : String) (s : Mem)
    (hs : List.Pairwise (fun a b : Entry => a.timestamp_us ≤ b.timestamp_us) s)
    (hlen : s.length ≤ 30) :
    (get_context_for_analysis c s).frames_available = s.length ∧
    (s ≠ [] → (get_context_for_analysis c s).time_span_seconds
        = some (((latestTs s - earliestTs s : Int) : ℚ) / 1000000)) ∧
    (get_context_for_analysis c []).frames_available = 0 ∧
    (get_context_for_analysis c []).average_motion_score = none := by
  have hfetch : get_scene_memory s 30 = s :=
    get_scene_memory_all s 30 (by decide) hlen
  refine ⟨?_, ?_, rfl, rfl⟩
  · cases s with
    | nil => rfl
    | cons e es =>
      simp [get_context_for_analysis, hfetch]
  · intro hne
    cases s with
    | nil => exact absurd rfl hne
    | cons e es =>
      have hhead : earliestTs (e :: es) = e.timestamp_us := earliestTs_sorted e es hs
      have hlast : latestTs (e :: es) = ((e :: es).getLast (List.cons_ne_nil e es)).timestamp_us :=
        latestTs_sorted (e :: es) (List.cons_ne_nil e es) hs
      cases es with
      | nil =>
        simp [get_context_for_analysis, hfetch, hhead, hlast]
      | cons f fs =>
        have hlt : 1 < (e :: f :: fs).length := by
          simp [List.length_cons]
        simp only [get_context_for_analysis, hfetch]
        rw [dif_neg (List.cons_ne_nil e (f :: fs))]
        simp only [if_pos hlt, hhead, hlast, List.head_cons]

theorem context_reports_witness :
    ((get_context_for_analysis "cam1" [sampleEntry 1000000, sampleEntry 3000000]).frames_available
        = ([sampleEntry 1000000, sampleEntry 3000000] : Mem).length ∧
     (get_context_for_analysis "cam1" [sampleEntry 1000000, sampleEntry 3000000]).time_span_seconds
        = some (((latestTs [sampleEntry 1000000, sampleEntry 3000000]
            - earliestTs [sampleEntry 1000000, sampleEntry 3000000] : Int) : ℚ) / 1000000) ∧
     (get_context_for_analysis "cam1" []).frames_available = 0 ∧
     (get_context_for_analysis "cam1" []).average_motion_score = none) :=
  ⟨(context_reports "cam1" [sampleEntry 1000000, sampleEntry 3000000]
      (by decide) (by decide)).1,
   (context_reports "cam1" [sampleEntry 1000000, sampleEntry 3000000]
      (by decide) (by decide)).2.1 (by decide),
   (context_reports "cam1" [sampleEntry 1000000, sampleEntry 3000000]
      (by decide) (by decide)).2.2.1,
   (context_reports "cam1" [sampleEntry 1000000, sampleEntry 3000000]
      (by decide) (by decide)).2.2.2⟩

/-- Claim C7: with scene-change enabled and no cooldown, low motion and no
qualifying vehicle detections, the first metadata carrying a (truthy) hash
for a camera whose recorded hash is absent records that hash in camera state
and returns (false, "no_trigger"); a later metadata with a different hash
updates the recorded hash and returns (true, "scene_change").  The recorded
hash is returned as the updated state, observable by the second call. -/
theorem scene_change_records_then_fires (cfg : Settings) (state : Option CamState)
    (m1 m2 : Metadata) (h1v h2v : Int)
    (hen : cfg.frame_request_enabled = true)
    (hsce : cfg.scene_change_enabled = true)
    (hs1 : m1.scene_hash = some h1v) (hs2 : m2.scene_hash = some h2v)
    (hz1 : h1v ≠ 0) (hz2 : h2v ≠ 0) (hne : h1v ≠ h2v)
    (hmot1 : (m1.motion_score).getD 0 ≤ cfg.motion_threshold)
    (hmot2 : (m2.motion_score).getD 0 ≤ cfg.motion_threshold)
    (hveh1 : ((m1.detections).getD []).find? (isVehicleTrigger cfg) = none)
    (hveh2 : ((m2.detections).getD []).find? (isVehicleTrigger cfg) = none)
    (hstate : state = none ∨ ∃ st0, state = some st0 ∧
        (st0.last_scene_hash = none ∨ st0.last_scene_hash = some 0)) :
    should_request_frame cfg false state m1
        = ((false, "no_trigger"), some { last_scene_hash := some h1v }) ∧
    should_request_frame cfg false (some { last_scene_hash := some h1v }) m2
        = ((true, "scene_change"), some { last_scene_hash := some h2v }) := by
  have hmc1 : ¬(((m1.motion_score).getD 0 ≠ 0) ∧
      cfg.motion_threshold < (m1.motion_score).getD 0) :=
    fun hc => absurd hc.2 (not_lt.mpr hmot1)
  have hmc2 : ¬(((m2.motion_score).getD 0 ≠ 0) ∧
      cfg.motion_threshold < (m2.motion_score).getD 0) :=
    fun hc => absurd hc.2 (not_lt.mpr hmot2)
  constructor
  · rcases hstate with rfl | ⟨st0, rfl, hlh⟩
    · simp [should_request_frame, check_request_cooldown, hen, hmc1, hveh1,
        hsce, hs1, hz1, setLastSceneHash]
    · rcases hlh with h0 | h0 <;>
        simp [should_request_frame, check_request_cooldown, hen, hmc1, hveh1,
          hsce, hs1, hz1, h0, setLastSceneHash]
  · simp only [should_request_frame, check_request_cooldown, hen, hmc2, hveh2,
      hsce, hs2, setLastSceneHash]
    simp [hz1, hz2, hne]

/-- Metadata carrying hash 111 with low motion and no detections. -/
def mH1 : Metadata :=
  { timestamp_us := some 10, sequence := none, motion_score := some (1/10),
    object_count := none, scene_hash := some 111, detections := some [] }

/-- Metadata carrying hash 222 with low motion and no detections. -/
def mH2 : Metadata :=
  { timestamp_us := some 20, sequence := none, motion_score := some (1/10),
    object_count := none, scene_hash := some 222, detections := some [] }

theorem scene_change_records_then_fires_witness :
    (should_request_frame defaultSettings false none mH1
        = ((false, "no_trigger"), some { last_scene_hash := some 111 }) ∧
     should_request_frame defaultSettings false (some { last_scene_hash := some 111 }) mH2
        = ((true, "scene_change"), some { last_scene_hash := some 222 })) :=
  scene_change_records_then_fires defaultSettings none mH1 mH2 111 222
    rfl rfl rfl rfl (by decide) (by decide) (by decide)
    (by norm_num [mH1, defaultSettings]) (by norm_num [mH2, defaultSettings])
    rfl rfl (Or.inl rfl)

theorem lookupKV_setKV_self {α : Type} (m : List (String × α)) (k : String) (v : α) :
    lookupKV (setKV m k v) k = some v := by
  simp [lookupKV, setKV, List.find?_cons_of_pos]

theorem lookupKV_delKV_self {α : Type} (m : List (String × α)) (k : String) :
    lookupKV (delKV m k) k = none := by
  rw [lookupKV, delKV]
  have hfind : (m.filter (fun p => decide (p.1 ≠ k))).find? (fun p => decide (p.1 = k))
      = none := by
    rw [List.find?_eq_none]
    intro a ha
    have hne := (List.mem_filter.mp ha).2
    simp only [decide_eq_true_eq] at hne ⊢
    exact hne
  rw [hfind]
  rfl

theorem lookupKV_expireSide_setKV {α : Type} (m : List (String × α × Nat))
    (k : String) (v : α × Nat) (t : Nat) :
    lookupKV (expireSide (setKV m k v) t) k = if t < v.2 then some v else none := by
  by_cases h : t < v.2
  · rw [if_pos h]
    simp only [expireSide, setKV, List.filter_cons]
    rw [if_pos (by simpa using h)]
    simp [lookupKV, List.find?_cons_of_pos]
  · rw [if_neg h]
    simp only [expireSide, setKV, List.filter_cons]
    rw [if_neg (by simpa using h)]
    rw [lookupKV]
    have hfind : ((m.filter (fun p => decide (p.1 ≠ k))).filter
        (fun p => decide (t < p.2.2))).find? (fun p => decide (p.1 = k)) = none := by
      rw [List.find?_eq_none]
      intro a ha
      have hne := (List.mem_filter.mp (List.mem_filter.mp ha).1).2
      simp only [decide_eq_true_eq] at hne ⊢
      exact hne
    rw [hfind]
    rfl

/-- handle_frame when the side-table holds a truthy event id: merge the
frame, dispatch one analysis, delete both side-table keys. -/
theorem handle_frame_dispatch (cfg : Settings) (st : PipelineState)
    (cam rid img : String) (ts : Int) (v : Int × Nat)
    (hrid : rid ≠ "") (hts : ts ≠ 0) (himg : img ≠ "")
    (hev : lookupKV st.sideEventId rid = some v) (hv : v.1 ≠ 0) :
    handle_frame cfg st cam ⟨some rid, some ts, some img⟩ =
      { st with
        sceneMem := setKV st.sceneMem cam
          (add_frame_image cfg ((lookupKV st.sceneMem cam).getD []) rid ts img),
        analyses_triggered := st.analyses_triggered + 1,
        dispatched := st.dispatched ++
          [(cam, ((lookupKV st.sideMetadata rid).map (fun p => p.1)).getD emptyMetadata, v.1)],
        sideEventId := delKV st.sideEventId rid,
        sideMetadata := delKV st.sideMetadata rid } := by
  rw [handle_frame]
  rw [if_pos (by simp [truthyOptStr, truthyOptInt, hrid, hts, himg])]
  simp only [Option.getD_some]
  rw [hev]
  simp [hv]

/-- handle_frame when the side-table key is absent: merge the frame only. -/
theorem handle_frame_miss (cfg : Settings) (st : PipelineState)
    (cam rid img : String) (ts : Int)
    (hrid : rid ≠ "") (hts : ts ≠ 0) (himg : img ≠ "")
    (hev : lookupKV st.sideEventId rid = none) :
    handle_frame cfg st cam ⟨some rid, some ts, some img⟩ =
      { st with
        sceneMem := setKV st.sceneMem cam
          (add_frame_image cfg ((lookupKV st.sceneMem cam).getD []) rid ts img) } := by
  rw [handle_frame]
  rw [if_pos (by simp [truthyOptStr, truthyOptInt, hrid, hts, himg])]
  simp only [Option.getD_some]
  rw [hev]

/-- handle_frame when the stored event id is 0 (falsy): merge the frame,
dispatch nothing, keep the side-table keys. -/
theorem handle_frame_zero (cfg : Settings) (st : PipelineState)
    (cam rid img : String) (ts : Int) (v : Int × Nat)
    (hrid : rid ≠ "") (hts : ts ≠ 0) (himg : img ≠ "")
    (hev : lookupKV st.sideEventId rid = some v) (hv : v.1 = 0) :
    handle_frame cfg st cam ⟨some rid, some ts, some img⟩ =
      { st with
        sceneMem := setKV st.sceneMem cam
          (add_frame_image cfg ((lookupKV st.sceneMem cam).getD []) rid ts img) } := by
  rw [handle_frame]
  rw [if_pos (by simp [truthyOptStr, truthyOptInt, hrid, hts, himg])]
  simp only [Option.getD_some]
  rw [hev]
  simp [hv]

/-- Claim C4: delivering the same complete frame message twice with a stored
side-table entry (truthy event id) dispatches exactly one analysis on the
first delivery and deletes both side-table keys, so the second delivery finds
them missing, dispatches nothing, and still merges the frame into scene
memory a second time. -/
theorem duplicate_frame_single_analysis (cfg : Settings) (st : PipelineState)
    (cam rid img : String) (ts : Int) (v : Int × Nat)
    (hrid : rid ≠ "") (hts : ts ≠ 0) (himg : img ≠ "")
    (hev : lookupKV st.sideEventId rid = some v) (hv : v.1 ≠ 0) :
    ((handle_frame cfg st cam ⟨some rid, some ts, some img⟩).dispatched.length
        = st.dispatched.length + 1) ∧
    lookupKV (handle_frame cfg st cam ⟨some rid, some ts, some img⟩).sideEventId rid
        = none ∧
    lookupKV (handle_frame cfg st cam ⟨some rid, some ts, some img⟩).sideMetadata rid
        = none ∧
    ((handle_frame cfg (handle_frame cfg st cam ⟨some rid, some ts, some img⟩) cam
        ⟨some rid, some ts, some img⟩).dispatched
      = (handle_frame cfg st cam ⟨some rid, some ts, some img⟩).dispatched) ∧
    lookupKV (handle_frame cfg (handle_frame cfg st cam ⟨some rid, some ts, some img⟩)
        cam ⟨some rid, some ts, some img⟩).sceneMem cam
      = some (add_frame_image cfg
          (add_frame_image cfg ((lookupKV st.sceneMem cam).getD []) rid ts img)
          rid ts img) := by
  have h1 := handle_frame_dispatch cfg st cam rid img ts v hrid hts himg hev hv
  have h2 := handle_frame_miss cfg (handle_frame cfg st cam ⟨some rid, some ts, some img⟩)
      cam rid img ts hrid hts himg (by rw [h1]; exact lookupKV_delKV_self _ _)
  refine ⟨?_, ?_, ?_, ?_, ?_⟩
  · rw [h1]; simp
  · rw [h1]; exact lookupKV_delKV_self _ _
  · rw [h1]; exact lookupKV_delKV_self _ _
  · rw [h2]
  · rw [h2]
    rw [h1]
    simp [lookupKV_setKV_self]

/-- A pipeline state holding one pending side-table pair for request rw4. -/
def stW4 : PipelineState :=
  { initState with
    sideEventId := [("rw4", (5, 300))],
    sideMetadata := [("rw4", (sampleMeta 5000000, 300))] }

theorem duplicate_frame_single_analysis_witness :
    ((handle_frame defaultSettings stW4 "cam4" ⟨some "rw4", some 5000250, some "im4"⟩).dispatched.length
        = stW4.dispatched.length + 1) ∧
    lookupKV (handle_frame defaultSettings stW4 "cam4"
        ⟨some "rw4", some 5000250, some "im4"⟩).sideEventId "rw4" = none ∧
    lookupKV (handle_frame defaultSettings stW4 "cam4"
        ⟨some "rw4", some 5000250, some "im4"⟩).sideMetadata "rw4" = none ∧
    ((handle_frame defaultSettings
        (handle_frame defaultSettings stW4 "cam4" ⟨some "rw4", some 5000250, some "im4"⟩)
        "cam4" ⟨some "rw4", some 5000250, some "im4"⟩).dispatched
      = (handle_frame defaultSettings stW4 "cam4"
          ⟨some "rw4", some 5000250, some "im4"⟩).dispatched) ∧
    lookupKV (handle_frame defaultSettings
        (handle_frame defaultSettings stW4 "cam4" ⟨some "rw4", some 5000250, some "im4"⟩)
        "cam4" ⟨some "rw4", some 5000250, some "im4"⟩).sceneMem "cam4"
      = some (add_frame_image defaultSettings
          (add_frame_image defaultSettings ((lookupKV stW4.sceneMem "cam4").getD [])
            "rw4" 5000250 "im4")
          "rw4" 5000250 "im4") :=
  duplicate_frame_single_analysis defaultSettings stW4 "cam4" "rw4" "im4" 5000250
    (5, 300) (by decide) (by decide) (by decide) (by decide) (by decide)

/-- Claim C10: a manual frame request stores event id 0 in the side table;
when the requested frame arrives, it is merged into scene memory, but the
falsy event id dispatches no analysis and the side-table keys are NOT
deleted: they remain readable (with their stored 300 s TTL) and disappear
only once 300 s have elapsed. -/
theorem manual_request_zero_event (cfg : Settings) (st : PipelineState)
    (cam reason rid img : String) (tm : Metadata) (ts : Int)
    (hrid : rid ≠ "") (hts : ts ≠ 0) (himg : img ≠ "") :
    (let st1 := (request_frame cfg st cam reason 0 tm rid true).1
     let st2 := handle_frame cfg st1 cam ⟨some rid, some ts, some img⟩
     st2.dispatched = st1.dispatched ∧
     st2.analyses_triggered = st1.analyses_triggered ∧
     lookupKV st2.sideEventId rid = some (0, 300) ∧
     lookupKV st2.sideMetadata rid = some (tm, 300) ∧
     lookupKV st2.sceneMem cam
        = some (add_frame_image cfg ((lookupKV st1.sceneMem cam).getD []) rid ts img) ∧
     lookupKV (expireSide st2.sideEventId 299) rid = some (0, 300) ∧
     lookupKV (expireSide st2.sideEventId 300) rid = none) := by
  dsimp only
  have hst1e : (request_frame cfg st cam reason 0 tm rid true).1.sideEventId
      = setKV st.sideEventId rid (0, 300) := rfl
  have hst1m : (request_frame cfg st cam reason 0 tm rid true).1.sideMetadata
      = setKV st.sideMetadata rid (tm, 300) := rfl
  have h0 := handle_frame_zero cfg (request_frame cfg st cam reason 0 tm rid true).1
      cam rid img ts (0, 300) hrid hts himg
      (by rw [hst1e]; exact lookupKV_setKV_self _ _ _) rfl
  refine ⟨?_, ?_, ?_, ?_, ?_, ?_, ?_⟩
  · rw [h0]
  · rw [h0]
  · rw [h0]
    show lookupKV (request_frame cfg st cam reason 0 tm rid true).1.sideEventId rid
        = some (0, 300)
    rw [hst1e]
    exact lookupKV_setKV_self _ _ _
  · rw [h0]
    show lookupKV (request_frame cfg st cam reason 0 tm rid true).1.sideMetadata rid
        = some (tm, 300)
    rw [hst1m]
    exact lookupKV_setKV_self _ _ _
  · rw [h0]
    exact lookupKV_setKV_self _ _ _
  · rw [h0]
    show lookupKV (expireSide (request_frame cfg st cam reason 0 tm rid true).1.sideEventId 299) rid
        = some (0, 300)
    rw [hst1e, lookupKV_expireSide_setKV]
    norm_num
  · rw [h0]
    show lookupKV (expireSide (request_frame cfg st cam reason 0 tm rid true).1.sideEventId 300) rid
        = none
    rw [hst1e, lookupKV_expireSide_setKV]
    norm_num

theorem manual_request_zero_event_witness :
    (let st1 := (request_frame defaultSettings initState "camZ" "manual_request"
        0 (sampleMeta 7) "ridZ" true).1
     let st2 := handle_frame defaultSettings st1 "camZ" ⟨some "ridZ", some 123, some "imz"⟩
     st2.dispatched = st1.dispatched ∧
     st2.analyses_triggered = st1.analyses_triggered ∧
     lookupKV st2.sideEventId "ridZ" = some (0, 300) ∧
     lookupKV st2.sideMetadata "ridZ" = some (sampleMeta 7, 300) ∧
     lookupKV st2.sceneMem "camZ"
        = some (add_frame_image defaultSettings
            ((lookupKV st1.sceneMem "camZ").getD []) "ridZ" 123 "imz") ∧
     lookupKV (expireSide st2.sideEventId 299) "ridZ" = some (0, 300) ∧
     lookupKV (expireSide st2.sideEventId 300) "ridZ" = none) :=
  manual_request_zero_event defaultSettings initState "camZ" "manual_request"
    "ridZ" "imz" (sampleMeta 7) 123 (by decide) (by decide) (by decide)

end AxisIS
